import Mathlib

/-!
Shallow embedding of the Product CRUD service
(src/api/schemas.py, src/api/models.py, src/api/crud.py, src/api/main.py).

The service is a single-table CRUD HTTP API.  We model:
  * pydantic field validation (constr, condecimal, the description validator);
  * the database table as a list of rows plus an autoincrement counter and a
    monotone transaction clock standing for the store's `func.now()`;
  * the five crud functions and the HTTP handlers, including the exact
    exception-translation structure of each handler.

Decimal values are modelled by their `Decimal.as_tuple()` representation
(sign, coefficient, exponent), which is what pydantic's ConstrainedDecimal
inspects.  Timestamps are naturals drawn from the transaction clock: every
unit of work that actually writes uses `clock + 1` as `now()` and leaves the
clock at that value, so time is strictly monotone across writes.
-/

deriving instance DecidableEq for Except

namespace ProductApi

/-- Decimal number in `Decimal.as_tuple()` form: the value is
`(-1)^sign * coeff * 10^exp`.  JSON numbers reach pydantic as
`Decimal(str(v))`, so this digit representation is exactly what the
validator sees. -/
structure Dec where
  sign : Bool
  coeff : Nat
  exp : Int
deriving DecidableEq

/-- Rational value denoted by a `Dec`. -/
def Dec.val (d : Dec) : ℚ :=
  (if d.sign then -1 else 1) * (d.coeff : ℚ) * (10 : ℚ) ^ d.exp

/-- Fuel-driven digit count; the fuel only bounds the recursion depth and
`numDigits` always supplies enough of it. -/
def numDigitsAux : Nat → Nat → Nat
  | 0, _ => 1
  | fuel + 1, n => if n < 10 then 1 else numDigitsAux fuel (n / 10) + 1

/-- Number of digits of a coefficient, matching `len(digit_tuple)` of a
Python `Decimal` (the zero coefficient has one digit).  `n` itself is more
than enough fuel, since dividing by 10 reaches a one-digit number within
`n` steps. -/
def numDigits (n : Nat) : Nat :=
  numDigitsAux n n

/-- Fuel-driven trailing-zero stripping; `stripTrailing` always supplies
enough fuel. -/
def stripTrailingAux : Nat → Nat → Nat × Nat
  | 0, c => (c, 0)
  | fuel + 1, c =>
    if c ≠ 0 ∧ c % 10 = 0 then
      let p := stripTrailingAux fuel (c / 10)
      (p.1, p.2 + 1)
    else (c, 0)

/-- Strip the trailing decimal zeros from a nonzero coefficient, returning
the stripped coefficient and the number of zeros removed.  This is the digit
effect of `Decimal.normalize()` on a nonzero value. -/
def stripTrailing (c : Nat) : Nat × Nat :=
  stripTrailingAux c c

/-- Python `Decimal.normalize()`: zero collapses to exponent 0, a nonzero
value has its trailing zeros moved into the exponent.  pydantic's
`ConstrainedDecimal.validate` normalizes before counting digits. -/
def Dec.normalize (d : Dec) : Dec :=
  if d.coeff = 0 then ⟨d.sign, 0, 0⟩
  else ⟨d.sign, (stripTrailing d.coeff).1, d.exp + (stripTrailing d.coeff).2⟩

/-- The pair (digits, decimals) computed by `ConstrainedDecimal.validate`
from a digit tuple and exponent:
if `exp ≥ 0` then `(len + exp, 0)`; if `abs exp > len` then
`(abs exp, abs exp)`; otherwise `(len, abs exp)`. -/
def pyDigitsDecimals (d : Dec) : Nat × Nat :=
  let L := numDigits d.coeff
  if 0 ≤ d.exp then (L + d.exp.toNat, 0)
  else
    let a := (-d.exp).toNat
    if L < a then (a, a) else (L, a)

/-- Python `Decimal` comparison with zero: a finite decimal is strictly
positive iff its sign bit is clear and its coefficient is nonzero.  The
lemma `Dec.isPos_iff_val_pos` below shows this agrees with `0 < d.val`,
the comparison pydantic's `number_size_validator` performs for `gt=0`. -/
def Dec.isPos (d : Dec) : Bool :=
  !d.sign && decide (0 < d.coeff)

/-- Python `Decimal` equality (`==`), which is numeric: zeros of any sign
and exponent are equal, and nonzero values are equal iff they agree after
moving trailing zeros of the coefficient into the exponent.  The lemma
`Dec.eqv_iff_val_eq` below shows this agrees with `a.val = b.val`. -/
def Dec.eqv (a b : Dec) : Bool :=
  if a.coeff = 0 then decide (b.coeff = 0)
  else
    decide (b.coeff ≠ 0) && decide (a.sign = b.sign)
      && decide ((stripTrailing a.coeff).1 = (stripTrailing b.coeff).1)
      && decide (a.exp + (stripTrailing a.coeff).2
                  = b.exp + (stripTrailing b.coeff).2)

/-- pydantic `condecimal(gt=0, max_digits=10, decimal_places=2)` applied to a
finite decimal: the `gt` comparison is on the numeric value (embedded as
`Dec.isPos`, see `Dec.isPos_iff_val_pos`), the digit checks are
`digits ≤ max_digits`, `decimals ≤ decimal_places` and
`whole_digits ≤ max_digits - decimal_places`, all on the normalized value
(src/api/schemas.py `price` field). -/
def condecimalOk (d : Dec) : Bool :=
  let n := d.normalize
  let dd := pyDigitsDecimals n
  d.isPos && decide (dd.1 ≤ 10) && decide (dd.2 ≤ 2)
    && decide (dd.1 - dd.2 ≤ 8)

/-- Python `str.strip()` as used by pydantic's `strip_whitespace`: drop
whitespace characters from both ends of the string. -/
def pyStrip (s : String) : String :=
  ⟨((s.data.dropWhile Char.isWhitespace).reverse.dropWhile
      Char.isWhitespace).reverse⟩

/-- pydantic `constr(strip_whitespace=True, min_length=1, max_length=255)`:
the length bounds are checked on the stripped string, and the stripped
string is the value kept (src/api/schemas.py `name` field). -/
def conStrOk (s : String) : Bool :=
  decide (1 ≤ (pyStrip s).length) && decide ((pyStrip s).length ≤ 255)

/-- The `description_length` validator of src/api/schemas.py: absent is
allowed, a present value must be at most 10000 characters. -/
def descOk : Option String → Bool
  | none => true
  | some s => decide (s.length ≤ 10000)

/-- Validated create payload (`schemas.ProductCreate`): `name` is kept in
stripped form, `description` is optional, `price` a validated decimal. -/
structure ProductCreate where
  name : String
  description : Option String
  price : Dec
deriving DecidableEq

/-- Validated update payload (`schemas.ProductUpdate`): every field is
`Optional` in pydantic, and an explicit JSON `null` becomes `None` exactly
like an absent field, so the parsed form cannot tell the two apart. -/
structure ProductUpdate where
  name : Option String
  description : Option String
  price : Option Dec
deriving DecidableEq

/-- Raw create request body.  `description` is `Optional[str]`, so absent
and explicit null both arrive as `None`; `name` and `price` are required
(a missing or null required field is a validation failure outside this
model, which only carries bodies where they are present). -/
structure RawCreate where
  name : String
  description : Option String
  price : Dec
deriving DecidableEq

/-- A field of a raw JSON update body: absent from the object, explicitly
null, or carrying a value. -/
inductive JField (α : Type) where
  | absent : JField α
  | null : JField α
  | value : α → JField α
deriving DecidableEq

/-- Raw update request body with the three JSON field states kept apart. -/
structure RawUpdate where
  name : JField String
  description : JField String
  price : JField Dec
deriving DecidableEq

/-- Replace explicit nulls by absence. -/
def JField.nullToAbsent : JField α → JField α
  | .null => .absent
  | f => f

/-- Replace every explicit null field of an update body by absence. -/
def RawUpdate.nullsToAbsent (r : RawUpdate) : RawUpdate :=
  ⟨r.name.nullToAbsent, r.description.nullToAbsent, r.price.nullToAbsent⟩

/-- FastAPI validation of a POST body against `schemas.ProductCreate`:
all three field validators must pass, and the kept `name` is the stripped
one.  `none` is a pydantic ValidationError (HTTP 422). -/
def validateCreate (r : RawCreate) : Option ProductCreate :=
  if conStrOk r.name && descOk r.description && condecimalOk r.price then
    some ⟨pyStrip r.name, r.description, r.price⟩
  else none

/-- pydantic handling of one `Optional` field of `schemas.ProductUpdate`:
absent and explicit null both validate to `None`; a present value must pass
the field's validator `ok` and is kept as `norm` of the value. -/
def parseOptField (ok : α → Bool) (norm : α → β) : JField α → Option (Option β)
  | .absent => some none
  | .null => some none
  | .value a => if ok a then some (norm a) else none

/-- FastAPI validation of a PUT body against `schemas.ProductUpdate`;
`none` is a pydantic ValidationError (HTTP 422). -/
def parseUpdate (r : RawUpdate) : Option ProductUpdate :=
  match parseOptField conStrOk pyStrip r.name,
      parseOptField (fun s => descOk (some s)) id r.description,
      parseOptField condecimalOk id r.price with
  | some n, some d, some p => some ⟨n, d, p⟩
  | _, _, _ => none

/-- A row of the `products` table (`models.Product`): integer primary key,
unique name, optional description, price, and the two timestamps. -/
structure ProductRow where
  id : Nat
  name : String
  description : Option String
  price : Dec
  created_at : Nat
  updated_at : Nat
deriving DecidableEq

/-- The database: the `products` table, the autoincrement counter for `id`,
and the transaction clock standing for the store's `func.now()`. -/
structure DB where
  rows : List ProductRow
  nextId : Nat
  clock : Nat
deriving DecidableEq

/-- Domain error of the crud layer (`crud.ProductAlreadyExistsError`). -/
inductive CrudError where
  | alreadyExists : CrudError
deriving DecidableEq

/-- The store's INSERT with its unique constraint on `name`
(`models.Product.name` has `unique=True`): a conflicting live row makes the
insert fail with an IntegrityError (modelled as `Except.error ()`);
otherwise the row is inserted with `server_default=func.now()` filling both
timestamps from the same transaction time. -/
def storeInsert (db : DB) (name : String) (description : Option String)
    (price : Dec) : Except Unit (DB × ProductRow) :=
  if db.rows.any (fun r => decide (r.name = name)) then .error ()
  else
    let now := db.clock + 1
    let row : ProductRow := ⟨db.nextId, name, description, price, now, now⟩
    .ok (⟨db.rows ++ [row], db.nextId + 1, now⟩, row)

namespace crud

/-- The body of `crud.create_product` with the pre-check read and the
insert decoupled: the pre-check sees state `pre` while the insert runs
against state `db`.  Sequential execution has `pre = db`; a racing writer
that inserts between the two is the case `pre ≠ db`.  A pre-check hit
raises `ProductAlreadyExistsError` before any insert; an IntegrityError
from the insert is rolled back and translated to the same error
(src/api/crud.py lines 29-53). -/
def create_product_core (pre db : DB) (p : ProductCreate) :
    DB × Except CrudError ProductRow :=
  if pre.rows.any (fun r => decide (r.name = p.name)) then
    (db, .error .alreadyExists)
  else
    match storeInsert db p.name p.description p.price with
    | .ok x => (x.1, .ok x.2)
    | .error _ => (db, .error .alreadyExists)

/-- `crud.create_product` as executed sequentially: pre-check and insert
see the same state. -/
def create_product (db : DB) (p : ProductCreate) :
    DB × Except CrudError ProductRow :=
  create_product_core db db p

/-- Ordering used by `crud.get_products` (`order_by(Product.id)`). -/
def rowIdLe (a b : ProductRow) : Prop := a.id ≤ b.id

instance : DecidableRel rowIdLe := fun a b => Nat.decLe a.id b.id

/-- `crud.get_products`: SELECT ordered by ascending id with OFFSET `skip`
and LIMIT `limit` (src/api/crud.py lines 55-69). -/
def get_products (db : DB) (skip limit : Nat) : List ProductRow :=
  ((db.rows.insertionSort rowIdLe).drop skip).take limit

/-- `crud.get_product`: first row with the given id, or `None`
(src/api/crud.py lines 71-87). -/
def get_product (db : DB) (pid : Nat) : Option ProductRow :=
  db.rows.find? (fun r => decide (r.id = pid))

/-- Application of the supplied fields of an update to a loaded row: each
`is not None` field is assigned, the others are left alone
(src/api/crud.py lines 107-120). -/
def applyUpdate (row : ProductRow) (u : ProductUpdate) : ProductRow :=
  { row with
    name := u.name.getD row.name
    description := match u.description with
      | some d => some d
      | none => row.description
    price := u.price.getD row.price }

/-- SQLAlchemy's net-change test at flush time: an UPDATE is emitted only
when some assigned attribute differs from its committed value (strings and
optional strings compare structurally, prices by Python Decimal `==`,
i.e. `Dec.eqv`).  With no net change the flush issues no SQL, so `onupdate`
does not fire. -/
def noNetChange (a b : ProductRow) : Bool :=
  decide (a.name = b.name) && decide (a.description = b.description)
    && Dec.eqv a.price b.price

/-- The uniqueness pre-check of `crud.update_product`: only run when `name`
is supplied, and it looks for a *different* row (`Product.id != product_id`)
carrying the new name (src/api/crud.py lines 107-115). -/
def precheckConflict (db : DB) (pid : Nat) (u : ProductUpdate) : Bool :=
  match u.name with
  | none => false
  | some n => db.rows.any (fun r => decide (r.name = n ∧ r.id ≠ pid))

/-- `crud.update_product` (src/api/crud.py lines 89-134): load the row
(`None` when absent, an ordinary outcome); pre-check a supplied name
against all other rows, raising `ProductAlreadyExistsError` on conflict;
assign the supplied fields; commit.  The commit emits an UPDATE only on a
net change, refreshing `updated_at` from the transaction clock; a unique
constraint violation at commit (name changed to one held by another row)
is rolled back and translated to `ProductAlreadyExistsError`.  A column
whose assigned value equals its committed value is not written, so an
equal-valued price keeps its stored representation. -/
def update_product (db : DB) (pid : Nat) (u : ProductUpdate) :
    DB × Except CrudError (Option ProductRow) :=
  match db.rows.find? (fun r => decide (r.id = pid)) with
  | none => (db, .ok none)
  | some row =>
    if precheckConflict db pid u then (db, .error .alreadyExists)
    else
      let row1 := applyUpdate row u
      if noNetChange row1 row then (db, .ok (some row))
      else if decide (row1.name ≠ row.name)
          && db.rows.any (fun r => decide (r.name = row1.name ∧ r.id ≠ pid))
      then (db, .error .alreadyExists)
      else
        let now := db.clock + 1
        let priceNew := if Dec.eqv row1.price row.price then row.price
          else row1.price
        let row2 : ProductRow :=
          ⟨row.id, row1.name, row1.description, priceNew, row.created_at, now⟩
        (⟨db.rows.map (fun r => if r.id = pid then row2 else r),
            db.nextId, now⟩, .ok (some row2))

/-- `crud.delete_product` (src/api/crud.py lines 136-160): load the row;
absent is the ordinary outcome `false`; otherwise delete it and commit,
returning `true`. -/
def delete_product (db : DB) (pid : Nat) : DB × Bool :=
  match db.rows.find? (fun r => decide (r.id = pid)) with
  | none => (db, false)
  | some _ =>
    (⟨db.rows.eraseP (fun r => decide (r.id = pid)), db.nextId, db.clock⟩,
      true)

end crud

/-- HTTP responses the modelled endpoints can produce. -/
inductive Resp where
  | ok200 : ProductRow → Resp
  | okList200 : List ProductRow → Resp
  | created201 : ProductRow → Resp
  | noContent204 : Resp
  | notFound404 : Resp
  | conflict409 : Resp
  | unprocessable422 : Resp
  | serverError500 : Resp
deriving DecidableEq

namespace main

/-- POST /products/ (src/api/main.py lines 61-90): FastAPI validates the
body first (422 on failure, no state touched); the handler catches
`ProductAlreadyExistsError` and maps it to 409; success is 201. -/
def create_product (db : DB) (raw : RawCreate) : DB × Resp :=
  match validateCreate raw with
  | none => (db, .unprocessable422)
  | some p =>
    match crud.create_product db p with
    | (db1, .ok row) => (db1, .created201 row)
    | (db1, .error .alreadyExists) => (db1, .conflict409)

/-- GET /products/ (src/api/main.py lines 92-116): query params default to
`skip=0, limit=100`. -/
def list_products (db : DB) (skip limit : Option Nat) : DB × Resp :=
  (db, .okList200 (crud.get_products db (skip.getD 0) (limit.getD 100)))

/-- GET /products/{id} (src/api/main.py lines 118-140): the 404 is raised
outside any try/except, so it reaches the client. -/
def get_product (db : DB) (pid : Nat) : DB × Resp :=
  match crud.get_product db pid with
  | none => (db, .notFound404)
  | some row => (db, .ok200 row)

/-- PUT /products/{id} (src/api/main.py lines 142-172).  The handler's
`except Exception` clause wraps the whole body: the `HTTPException(404)`
raised for an absent row inside the `try` block is itself an `Exception`
and is re-raised as 500, and `ProductAlreadyExistsError` has no dedicated
handler here (unlike POST), so a name conflict is also re-raised as 500. -/
def update_product (db : DB) (pid : Nat) (raw : RawUpdate) : DB × Resp :=
  match parseUpdate raw with
  | none => (db, .unprocessable422)
  | some u =>
    match crud.update_product db pid u with
    | (db1, .ok (some row)) => (db1, .ok200 row)
    | (db1, .ok none) => (db1, .serverError500)
    | (db1, .error .alreadyExists) => (db1, .serverError500)

/-- DELETE /products/{id} (src/api/main.py lines 174-202).  As in PUT, the
`HTTPException(404)` for an absent row is raised inside the `try` block and
caught by `except Exception`, which re-raises it as 500. -/
def delete_product (db : DB) (pid : Nat) : DB × Resp :=
  match crud.delete_product db pid with
  | (db1, true) => (db1, .noContent204)
  | (db1, false) => (db1, .serverError500)

end main

/-- Spec-worded price rule, for comparison with `condecimalOk`: "decimal
with up to 10 total digits and exactly 2 fractional digits, strictly
greater than zero". -/
def specPriceOk (d : Dec) : Bool :=
  d.isPos && decide ((pyDigitsDecimals d).1 ≤ 10)
    && decide ((pyDigitsDecimals d).2 = 2)

/-- Concrete decimal 9.99. -/
def dec999 : Dec := ⟨false, 999, -2⟩

/-- Concrete decimal 12.50. -/
def dec1250 : Dec := ⟨false, 1250, -2⟩

/-- Concrete decimal 9.9. -/
def dec99 : Dec := ⟨false, 99, -1⟩

/-- Concrete row id 1, name "Widget", price 9.99, timestamps 1. -/
def widgetRow : ProductRow := ⟨1, "Widget", none, dec999, 1, 1⟩

/-- Concrete row id 2, name "Gadget", price 12.50, timestamps 2. -/
def gadgetRow : ProductRow := ⟨2, "Gadget", some "g", dec1250, 2, 2⟩

/-- Empty table. -/
def db0 : DB := ⟨[], 1, 0⟩

/-- Table holding only `widgetRow`. -/
def db1 : DB := ⟨[widgetRow], 2, 1⟩

/-- Table holding `widgetRow` and `gadgetRow`. -/
def db2 : DB := ⟨[widgetRow, gadgetRow], 3, 2⟩

/-- Create body that duplicates the name "Widget". -/
def rawWidget : RawCreate := ⟨"Widget", none, dec999⟩

/-- Update body with every field absent. -/
def emptyUpdate : RawUpdate := ⟨.absent, .absent, .absent⟩

/-- Validated payload corresponding to `rawWidget`. -/
def pcWidget : ProductCreate := ⟨"Widget", none, dec999⟩

/-- Create body whose price is the (invalid) decimal zero. -/
def rawZeroPrice : RawCreate := ⟨"Widget", none, ⟨false, 0, 0⟩⟩

instance : IsTotal ProductRow crud.rowIdLe :=
  ⟨fun a b => Nat.le_total a.id b.id⟩

instance : IsTrans ProductRow crud.rowIdLe :=
  ⟨fun _ _ _ h h' => Nat.le_trans h h'⟩

/-- Positivity of the denoted value in terms of the representation. -/
theorem Dec.val_pos_iff (d : Dec) :
    0 < d.val ↔ d.sign = false ∧ 0 < d.coeff := by
  have hp : (0 : ℚ) < (10 : ℚ) ^ d.exp := zpow_pos (by norm_num) _
  have hnn : (0 : ℚ) ≤ (d.coeff : ℚ) := by positivity
  cases hs : d.sign with
  | false =>
    have hv : d.val = (d.coeff : ℚ) * (10 : ℚ) ^ d.exp := by
      simp [Dec.val, hs]
    rw [hv]
    simp only [hs, true_and]
    constructor
    · intro h
      by_contra hc
      have : d.coeff = 0 := by omega
      rw [this] at h
      simp at h
    · intro h
      have : (0 : ℚ) < (d.coeff : ℚ) := by exact_mod_cast h
      positivity
  | true =>
    have hv : d.val = -((d.coeff : ℚ) * (10 : ℚ) ^ d.exp) := by
      simp [Dec.val, hs]
    rw [hv]
    constructor
    · intro h
      nlinarith
    · rintro ⟨h, -⟩
      exact absurd h (by simp [hs])

/-- The structural positivity test agrees with the numeric comparison
pydantic performs for the `gt=0` bound. -/
theorem Dec.isPos_iff_val_pos (d : Dec) : d.isPos = true ↔ 0 < d.val := by
  rw [Dec.val_pos_iff]
  simp [Dec.isPos, Bool.and_eq_true, Bool.not_eq_true']

/-- The fuel-driven trailing-zero stripper is correct whenever it is given
at least `c` units of fuel: it factors `c` as `s * 10 ^ k` with `s` not
divisible by 10 (for nonzero `c`). -/
theorem stripTrailingAux_spec :
    ∀ fuel c : Nat, c ≤ fuel →
      (stripTrailingAux fuel c).1 * 10 ^ (stripTrailingAux fuel c).2 = c
        ∧ (c ≠ 0 → ¬ 10 ∣ (stripTrailingAux fuel c).1) := by
  intro fuel
  induction fuel with
  | zero =>
    intro c hc
    have : c = 0 := by omega
    subst this
    simp [stripTrailingAux]
  | succ n ih =>
    intro c hc
    by_cases h : c ≠ 0 ∧ c % 10 = 0
    · have hle : c / 10 ≤ n := by
        have := Nat.div_lt_self (by omega : 0 < c) (by omega : 1 < 10)
        omega
      obtain ⟨h1, h2⟩ := ih (c / 10) hle
      have hten : c / 10 * 10 = c := Nat.div_mul_cancel (Nat.dvd_of_mod_eq_zero h.2)
      simp only [stripTrailingAux, if_pos h]
      constructor
      · rw [pow_succ, ← mul_assoc, h1, hten]
      · intro _
        apply h2
        omega
    · simp only [stripTrailingAux, if_neg h]
      constructor
      · simp
      · intro hc0 hdvd
        rcases hdvd with ⟨k, rfl⟩
        exact h ⟨hc0, by omega⟩

/-- Correctness of `stripTrailing`. -/
theorem stripTrailing_spec (c : Nat) :
    (stripTrailing c).1 * 10 ^ (stripTrailing c).2 = c
      ∧ (c ≠ 0 → ¬ 10 ∣ (stripTrailing c).1) :=
  stripTrailingAux_spec c c le_rfl

/-- The value of a decimal is zero exactly when its coefficient is. -/
theorem Dec.val_eq_zero_iff (d : Dec) : d.val = 0 ↔ d.coeff = 0 := by
  have hz : (10 : ℚ) ^ d.exp ≠ 0 := zpow_ne_zero _ (by norm_num)
  cases hs : d.sign <;>
    simp [Dec.val, hs, mul_eq_zero, hz, Nat.cast_eq_zero]

/-- Canonical form of the value of a decimal with nonzero coefficient. -/
theorem Dec.val_canon (d : Dec) :
    d.val = (if d.sign then -1 else 1) * ((stripTrailing d.coeff).1 : ℚ)
      * (10 : ℚ) ^ (d.exp + ((stripTrailing d.coeff).2 : ℤ)) := by
  have hc := (stripTrailing_spec d.coeff).1
  have h10 : (10 : ℚ) ≠ 0 := by norm_num
  conv_lhs => rw [Dec.val, ← hc]
  rw [zpow_add₀ h10, zpow_natCast]
  push_cast
  ring

/-- Injectivity of the canonical decimal form, one-sided version: a value
written as `s * 10 ^ e` with `s` positive and not divisible by 10 has a
unique such writing (assuming `e1 ≤ e2`). -/
theorem canon_le_aux (s1 s2 : Nat) (e1 e2 : Int) (hle : e1 ≤ e2)
    (nd1 : ¬ 10 ∣ s1)
    (h : (s1 : ℚ) * (10 : ℚ) ^ e1 = (s2 : ℚ) * (10 : ℚ) ^ e2) :
    s1 = s2 ∧ e1 = e2 := by
  have h10 : (10 : ℚ) ≠ 0 := by norm_num
  have hone : (10 : ℚ) ^ e1 * (10 : ℚ) ^ (-e1) = 1 := by
    rw [← zpow_add₀ h10]
    simp
  have key : (s1 : ℚ) = (s2 : ℚ) * (10 : ℚ) ^ (e2 - e1) := by
    calc (s1 : ℚ) = (s1 : ℚ) * ((10 : ℚ) ^ e1 * (10 : ℚ) ^ (-e1)) := by
          rw [hone, mul_one]
      _ = (s1 : ℚ) * (10 : ℚ) ^ e1 * (10 : ℚ) ^ (-e1) := by ring
      _ = (s2 : ℚ) * (10 : ℚ) ^ e2 * (10 : ℚ) ^ (-e1) := by rw [h]
      _ = (s2 : ℚ) * ((10 : ℚ) ^ e2 * (10 : ℚ) ^ (-e1)) := by ring
      _ = (s2 : ℚ) * (10 : ℚ) ^ (e2 + -e1) := by rw [← zpow_add₀ h10]
      _ = (s2 : ℚ) * (10 : ℚ) ^ (e2 - e1) := by rw [sub_eq_add_neg]
  have hme : (((e2 - e1).toNat : ℤ)) = e2 - e1 := Int.toNat_of_nonneg (by omega)
  have hzp : (10 : ℚ) ^ (e2 - e1) = (10 : ℚ) ^ ((e2 - e1).toNat) := by
    rw [← zpow_natCast (10 : ℚ) (e2 - e1).toNat, hme]
  have key2 : (s1 : ℚ) = ((s2 * 10 ^ (e2 - e1).toNat : ℕ) : ℚ) := by
    rw [key, hzp]
    push_cast
    ring
  have hnat : s1 = s2 * 10 ^ (e2 - e1).toNat := by exact_mod_cast key2
  rcases Nat.eq_zero_or_pos (e2 - e1).toNat with hm0 | hmp
  · constructor
    · rw [hnat, hm0, pow_zero, mul_one]
    · rw [hm0] at hme
      omega
  · exfalso
    apply nd1
    refine ⟨s2 * 10 ^ ((e2 - e1).toNat - 1), ?_⟩
    rw [hnat]
    have hpow : 10 ^ (e2 - e1).toNat = 10 * 10 ^ ((e2 - e1).toNat - 1) := by
      conv_lhs => rw [show (e2 - e1).toNat = 1 + ((e2 - e1).toNat - 1) by omega]
      rw [pow_add, pow_one]
    rw [hpow]
    ring

/-- Injectivity of the canonical decimal form. -/
theorem canon_inj (s1 s2 : Nat) (e1 e2 : Int)
    (nd1 : ¬ 10 ∣ s1) (nd2 : ¬ 10 ∣ s2)
    (h : (s1 : ℚ) * (10 : ℚ) ^ e1 = (s2 : ℚ) * (10 : ℚ) ^ e2) :
    s1 = s2 ∧ e1 = e2 := by
  rcases le_total e1 e2 with hle | hle
  · exact canon_le_aux s1 s2 e1 e2 hle nd1 h
  · obtain ⟨hs, he⟩ := canon_le_aux s2 s1 e2 e1 hle nd2 h.symm
    exact ⟨hs.symm, he.symm⟩

/-- The structural equality test `Dec.eqv` agrees with numeric equality of
the denoted values, i.e. with Python `Decimal.__eq__`. -/
theorem Dec.eqv_iff_val_eq (a b : Dec) : Dec.eqv a b = true ↔ a.val = b.val := by
  by_cases ha : a.coeff = 0
  · have hva : a.val = 0 := (Dec.val_eq_zero_iff a).2 ha
    rw [hva]
    simp only [Dec.eqv, if_pos ha, decide_eq_true_eq]
    constructor
    · intro hh
      exact ((Dec.val_eq_zero_iff b).2 hh).symm
    · intro hh
      exact (Dec.val_eq_zero_iff b).1 hh.symm
  · by_cases hb : b.coeff = 0
    · have hva : a.val ≠ 0 := fun hh => ha ((Dec.val_eq_zero_iff a).1 hh)
      have hvb : b.val = 0 := (Dec.val_eq_zero_iff b).2 hb
      simp only [Dec.eqv, if_neg ha]
      constructor
      · intro hq
        simp [hb] at hq
      · intro hq
        exact absurd (hq.trans hvb) hva
    · have hca : 0 < a.coeff := Nat.pos_of_ne_zero ha
      have hcb : 0 < b.coeff := Nat.pos_of_ne_zero hb
      have hspa := stripTrailing_spec a.coeff
      have hspb := stripTrailing_spec b.coeff
      have hsa_pos : 0 < (stripTrailing a.coeff).1 := by
        rcases Nat.eq_zero_or_pos (stripTrailing a.coeff).1 with hz | hp
        · exfalso
          have := hspa.1
          rw [hz] at this
          omega
        · exact hp
      have hsb_pos : 0 < (stripTrailing b.coeff).1 := by
        rcases Nat.eq_zero_or_pos (stripTrailing b.coeff).1 with hz | hp
        · exfalso
          have := hspb.1
          rw [hz] at this
          omega
        · exact hp
      have nda : ¬ 10 ∣ (stripTrailing a.coeff).1 := hspa.2 ha
      have ndb : ¬ 10 ∣ (stripTrailing b.coeff).1 := hspb.2 hb
      constructor
      · intro hq
        simp only [Dec.eqv, if_neg ha, Bool.and_eq_true, decide_eq_true_eq] at hq
        obtain ⟨⟨⟨-, hsign⟩, hs⟩, he⟩ := hq
        rw [Dec.val_canon a, Dec.val_canon b, hsign, hs, he]
      · intro h
        have hsign : a.sign = b.sign := by
          cases hsa : a.sign <;> cases hsb : b.sign <;> try rfl
          · exfalso
            have h1 : 0 < a.val := (Dec.val_pos_iff a).2 ⟨hsa, hca⟩
            have h2 : ¬ 0 < b.val := by
              rw [Dec.val_pos_iff]
              rintro ⟨hh, -⟩
              rw [hsb] at hh
              simp at hh
            exact h2 (h ▸ h1)
          · exfalso
            have h1 : 0 < b.val := (Dec.val_pos_iff b).2 ⟨hsb, hcb⟩
            have h2 : ¬ 0 < a.val := by
              rw [Dec.val_pos_iff]
              rintro ⟨hh, -⟩
              rw [hsa] at hh
              simp at hh
            exact h2 (h ▸ h1)
        have hEq : ((stripTrailing a.coeff).1 : ℚ)
              * (10 : ℚ) ^ (a.exp + ((stripTrailing a.coeff).2 : ℤ))
            = ((stripTrailing b.coeff).1 : ℚ)
              * (10 : ℚ) ^ (b.exp + ((stripTrailing b.coeff).2 : ℤ)) := by
          have hA := Dec.val_canon a
          have hB := Dec.val_canon b
          rw [hA, hB, hsign] at h
          have hσ : (if b.sign then (-1 : ℚ) else 1) ≠ 0 := by
            cases b.sign <;> norm_num
          rw [mul_assoc, mul_assoc] at h
          exact mul_left_cancel₀ hσ h
        obtain ⟨hs, he⟩ := canon_inj _ _ _ _ nda ndb hEq
        simp [Dec.eqv, if_neg ha, hb, hsign, hs, he]

/-- Replacing the rows with a given id leaves the first hit of `find?` at
the replacement row, provided the replacement carries that id. -/
theorem find?_map_set {rows : List ProductRow} {pid : Nat}
    {row row2 : ProductRow}
    (hfind : rows.find? (fun r => decide (r.id = pid)) = some row)
    (h2 : row2.id = pid) :
    (rows.map (fun r => if r.id = pid then row2 else r)).find?
      (fun r => decide (r.id = pid)) = some row2 := by
  induction rows with
  | nil => simp at hfind
  | cons a l ih =>
    by_cases hha : a.id = pid
    · simp only [List.map_cons, if_pos hha]
      rw [List.find?_cons_of_pos _ (by simp [h2])]
    · rw [List.find?_cons_of_neg _ (by simp [hha])] at hfind
      simp only [List.map_cons, if_neg hha]
      rw [List.find?_cons_of_neg _ (by simp [hha])]
      exact ih hfind

/-- C1: a create request whose stripped name matches an existing row fails
with the `AlreadyExists` kind and leaves the table untouched, whether the
conflict is seen by the pre-check read (`pre` holds the conflict) or only
by the store's unique constraint at insert time (`pre` missed it but `db`
holds it); the POST handler surfaces it as HTTP 409. -/
theorem create_conflict_already_exists
    (pre db : DB) (raw : RawCreate) (p : ProductCreate)
    (hval : validateCreate raw = some p)
    (hconf : ∃ r ∈ db.rows, r.name = p.name) :
    crud.create_product_core pre db p = (db, .error .alreadyExists)
      ∧ main.create_product db raw = (db, .conflict409) := by
  have hany : db.rows.any (fun r => decide (r.name = p.name)) = true := by
    rcases hconf with ⟨r, hr, hname⟩
    exact List.any_eq_true.2 ⟨r, hr, by simp [hname]⟩
  have hcore : ∀ q : DB,
      crud.create_product_core q db p = (db, .error .alreadyExists) := by
    intro q
    unfold crud.create_product_core
    by_cases hq : q.rows.any (fun r => decide (r.name = p.name)) = true
    · rw [if_pos hq]
    · rw [if_neg hq]
      unfold storeInsert
      rw [if_pos hany]
  refine ⟨hcore pre, ?_⟩
  unfold main.create_product
  rw [hval]
  simp only [crud.create_product, hcore db]

/-- Witness for C1 at the concrete table `db1`, which already holds a row
named "Widget". -/
theorem create_conflict_already_exists_witness :
    crud.create_product_core db1 db1 pcWidget = (db1, .error .alreadyExists)
      ∧ main.create_product db1 rawWidget = (db1, .conflict409) :=
  create_conflict_already_exists db1 db1 rawWidget pcWidget (by decide)
    ⟨widgetRow, by decide, by decide⟩

/-- C2 fails on the code: the PUT handler's `except Exception` catches both
the `HTTPException(404)` it raised for an absent row and the
`ProductAlreadyExistsError` from a name conflict, so both surface as 500
(the repository's own tests expect 404 and 409 here).  This theorem
evaluates the handler at both failing inputs: PUT on an empty table, and
PUT renaming "Gadget" to the name of the other row "Widget". -/
theorem put_absent_and_conflict_yield_500 :
    main.update_product db0 1 ⟨.value "Nonexistent", .absent, .absent⟩
        = (db0, .serverError500)
      ∧ main.update_product db2 2 ⟨.value "Widget", .absent, .absent⟩
        = (db2, .serverError500) := by
  decide

/-- C3 fails on the code: the DELETE handler raises `HTTPException(404)`
for an absent row inside its `try` block, `except Exception` catches it and
re-raises 500 (the repository's own tests expect 404).  This theorem
evaluates the handler at the failing input, DELETE on an empty table; the
companion theorem `delete_present_removes_row` below shows the healthy
part of the claim. -/
theorem delete_absent_yields_500 :
    main.delete_product db0 1 = (db0, .serverError500) := by
  decide

/-- Existing-row half of C3, which the code does satisfy: deleting a
present row removes exactly that row and answers 204 with no body. -/
theorem delete_present_removes_row
    (db : DB) (pid : Nat) (row : ProductRow)
    (hfind : db.rows.find? (fun r => decide (r.id = pid)) = some row) :
    main.delete_product db pid
      = (⟨db.rows.eraseP (fun r => decide (r.id = pid)), db.nextId, db.clock⟩,
        .noContent204) := by
  unfold main.delete_product crud.delete_product
  rw [hfind]

/-- Witness for the existing-row half of C3. -/
theorem delete_present_removes_row_witness :
    main.delete_product db2 1
      = (⟨db2.rows.eraseP (fun r => decide (r.id = 1)), db2.nextId,
          db2.clock⟩, .noContent204) :=
  delete_present_removes_row db2 1 widgetRow (by decide)

/-- C4: on an update of an existing row with `name` supplied, a name held
by a *different* row makes `update_product` raise `AlreadyExists` (and roll
nothing forward), while re-supplying the row's own current name does not
fail, because the uniqueness re-check excludes the row being updated. -/
theorem update_name_uniqueness
    (db : DB) (pid : Nat) (u : ProductUpdate) (row : ProductRow)
    (hfind : db.rows.find? (fun r => decide (r.id = pid)) = some row) :
    ((∃ n, u.name = some n ∧ ∃ r' ∈ db.rows, r'.name = n ∧ r'.id ≠ pid) →
        crud.update_product db pid u = (db, .error .alreadyExists))
      ∧ (u.name = some row.name →
          (∀ r' ∈ db.rows, r'.name = row.name → r'.id = pid) →
          ∃ db2 row2, crud.update_product db pid u = (db2, .ok (some row2))) := by
  constructor
  · rintro ⟨n, hn, r', hr', hname, hid⟩
    have hpc : crud.precheckConflict db pid u = true := by
      rw [crud.precheckConflict, hn, List.any_eq_true]
      exact ⟨r', hr', by simp [hname, hid]⟩
    simp only [crud.update_product, hfind, hpc]
    simp
  · intro hn huni
    have hpc : crud.precheckConflict db pid u = false := by
      rw [crud.precheckConflict, hn, List.any_eq_false]
      intro r hr
      simp only [decide_eq_true_eq, not_and, not_not]
      exact huni r hr
    have hname1 : (crud.applyUpdate row u).name = row.name := by
      simp [crud.applyUpdate, hn]
    by_cases hnc : crud.noNetChange (crud.applyUpdate row u) row = true
    · refine ⟨db, row, ?_⟩
      simp only [crud.update_product, hfind, hpc, hnc]
      simp
    · have hcond : (decide ((crud.applyUpdate row u).name ≠ row.name)
          && db.rows.any
            (fun r => decide (r.name = (crud.applyUpdate row u).name
              ∧ r.id ≠ pid))) = false := by
        simp [hname1]
      rw [Bool.not_eq_true] at hnc
      simp only [crud.update_product, hfind, hpc, hnc, hcond]
      simp only [Bool.false_eq_true, if_false]
      exact ⟨_, _, rfl⟩

/-- Witness for C4: renaming "Gadget" (row 2) to "Widget" conflicts with
row 1, and renaming it to its own name "Gadget" succeeds. -/
theorem update_name_uniqueness_witness :
    (crud.update_product db2 2 ⟨some "Widget", none, none⟩
        = (db2, .error .alreadyExists))
      ∧ ∃ db2' row2, crud.update_product db2 2 ⟨some "Gadget", none, none⟩
        = (db2', .ok (some row2)) :=
  ⟨(update_name_uniqueness db2 2 ⟨some "Widget", none, none⟩ gadgetRow
      (by decide)).1 ⟨"Widget", rfl, widgetRow, by decide, by decide, by decide⟩,
    (update_name_uniqueness db2 2 ⟨some "Gadget", none, none⟩ gadgetRow
      (by decide)).2 rfl (by decide)⟩

/-- C5 fails on the code: an explicitly null field of an update payload is
not validated under create's rules.  pydantic's `Optional` fields let the
null through as `None`, and the crud layer's `is not None` test then treats
it exactly like an absent field: the PUT with `price: null` below succeeds
with 200 and leaves the price unchanged, where the claim demands a
validation rejection. -/
theorem null_price_update_not_rejected :
    parseUpdate ⟨.absent, .absent, .null⟩ = some ⟨none, none, none⟩
      ∧ main.update_product db1 1 ⟨.absent, .absent, .null⟩
        = (db1, .ok200 widgetRow) := by
  decide

/-- C5 amended: an explicitly null field of an update payload is treated
identically to an absent field (leave unchanged), while a present non-null
field is validated under exactly the same constraint rules as in create. -/
theorem update_null_fields_treated_as_absent :
    (∀ r : RawUpdate, parseUpdate r = parseUpdate r.nullsToAbsent)
      ∧ (∀ (n dsc : String) (p : Dec),
          (parseUpdate ⟨.value n, .value dsc, .value p⟩).isSome
            = (validateCreate ⟨n, some dsc, p⟩).isSome) := by
  constructor
  · rintro ⟨rn, rd, rp⟩
    cases rn <;> cases rd <;> cases rp <;> rfl
  · intro n dsc p
    cases h1 : conStrOk n <;> cases h2 : descOk (some dsc) <;>
        cases h3 : condecimalOk p <;>
      simp [parseUpdate, parseOptField, validateCreate, h1, h2, h3]

/-- C6 fails on the code in one corner: supplying only `price` with a value
numerically equal to the stored price produces no net change, SQLAlchemy's
flush emits no UPDATE, and `updated_at` is not advanced — the row comes
back unchanged.  Here row 1 of `db1` has price 9.99 and the update supplies
9.99 again: the result is the original row, whose `updated_at` equals its
value before the update instead of being strictly later. -/
theorem update_same_price_keeps_updated_at :
    crud.update_product db1 1 ⟨none, none, some dec999⟩
      = (db1, .ok (some widgetRow)) := by
  decide

/-- C6 amended: an update of an existing row that supplies only `price`,
with a value that differs from the stored price, leaves `name` and
`description` unchanged, stores the supplied price, and advances
`updated_at` to a strictly later timestamp (both on the returned record and
on the stored row). -/
theorem update_only_price_advances_updated_at
    (db : DB) (pid : Nat) (row : ProductRow) (p : Dec)
    (hfind : db.rows.find? (fun r => decide (r.id = pid)) = some row)
    (hclk : row.updated_at ≤ db.clock)
    (hne : Dec.eqv p row.price = false) :
    ∃ db2 row2,
      crud.update_product db pid ⟨none, none, some p⟩ = (db2, .ok (some row2))
        ∧ row2.name = row.name ∧ row2.description = row.description
        ∧ row2.price = p ∧ row.updated_at < row2.updated_at
        ∧ db2.rows.find? (fun r => decide (r.id = pid)) = some row2 := by
  have hpc : crud.precheckConflict db pid ⟨none, none, some p⟩ = false := rfl
  have happ : crud.applyUpdate row ⟨none, none, some p⟩
      = { row with price := p } := rfl
  have hnc : crud.noNetChange (crud.applyUpdate row ⟨none, none, some p⟩) row
      = false := by
    rw [happ]
    simp [crud.noNetChange, hne]
  have hcond : (decide ((crud.applyUpdate row ⟨none, none, some p⟩).name
        ≠ row.name)
      && db.rows.any (fun r =>
        decide (r.name = (crud.applyUpdate row ⟨none, none, some p⟩).name
          ∧ r.id ≠ pid))) = false := by
    rw [happ]
    simp
  have hid : row.id = pid := by
    have := List.find?_some hfind
    simpa using this
  simp only [crud.update_product, hfind, hpc, hnc, hcond]
  simp only [Bool.false_eq_true, if_false]
  refine ⟨_, _, rfl, ?_, ?_, ?_, ?_, ?_⟩
  · rw [happ]
  · rw [happ]
  · rw [happ]
    simp [hne]
  · show row.updated_at < db.clock + 1
    omega
  · exact find?_map_set hfind hid

/-- Witness for the amended C6 at `db1`: updating row 1 (price 9.99) with
only price 12.50 supplied. -/
theorem update_only_price_advances_updated_at_witness :
    ∃ db2 row2,
      crud.update_product db1 1 ⟨none, none, some dec1250⟩
          = (db2, .ok (some row2))
        ∧ row2.name = widgetRow.name ∧ row2.description = widgetRow.description
        ∧ row2.price = dec1250 ∧ widgetRow.updated_at < row2.updated_at
        ∧ db2.rows.find? (fun r => decide (r.id = 1)) = some row2 :=
  update_only_price_advances_updated_at db1 1 widgetRow dec1250 (by decide)
    (by decide) (by decide)

/-- C7 fails on the code: pydantic's `decimal_places=2` is an *at most*
bound on the normalized value, not an *exactly* bound, so the price 9.9 —
one fractional digit — is accepted although the claim's rule ("exactly 2
fractional digits") rejects it. -/
theorem condecimal_accepts_one_fractional_digit :
    condecimalOk dec99 = true ∧ specPriceOk dec99 = false := by
  decide

/-- C7 amended: validation accepts a price iff it is strictly greater than
zero, has at most 2 fractional digits and at most 8 whole digits, both
counted on the normalized value (the at-most-10-total-digits bound follows
from these two); a price failing the check is rejected with 422 before any
persistence call, the table left untouched. -/
theorem condecimal_accepts_iff :
    (∀ d : Dec, condecimalOk d = true ↔
        (0 < d.val ∧ (pyDigitsDecimals d.normalize).2 ≤ 2
          ∧ (pyDigitsDecimals d.normalize).1
              - (pyDigitsDecimals d.normalize).2 ≤ 8))
      ∧ (∀ (db : DB) (raw : RawCreate), condecimalOk raw.price = false →
          main.create_product db raw = (db, .unprocessable422)) := by
  constructor
  · intro d
    unfold condecimalOk
    simp only [Bool.and_eq_true, decide_eq_true_eq, Dec.isPos_iff_val_pos]
    constructor
    · rintro ⟨⟨⟨h0, -⟩, h2⟩, h3⟩
      exact ⟨h0, h2, h3⟩
    · rintro ⟨h0, h2, h3⟩
      refine ⟨⟨⟨h0, ?_⟩, h2⟩, h3⟩
      omega
  · intro db raw h
    unfold main.create_product validateCreate
    rw [h]
    simp

/-- Witness for the amended C7: the zero price is rejected with 422 before
persistence, and 9.99 satisfies the characterization. -/
theorem condecimal_accepts_iff_witness :
    main.create_product db0 rawZeroPrice = (db0, .unprocessable422)
      ∧ (0 < dec999.val ∧ (pyDigitsDecimals dec999.normalize).2 ≤ 2
          ∧ (pyDigitsDecimals dec999.normalize).1
              - (pyDigitsDecimals dec999.normalize).2 ≤ 8) :=
  ⟨condecimal_accepts_iff.2 db0 rawZeroPrice (by decide),
    (condecimal_accepts_iff.1 dec999).1 (by decide)⟩

/-- C8: creating with a valid payload whose name no row holds succeeds, and
the returned record carries the input's name, description and price, the
next autoincrement id, and equal creation and update timestamps. -/
theorem create_fresh_name_succeeds
    (db : DB) (p : ProductCreate)
    (hfresh : ∀ r ∈ db.rows, r.name ≠ p.name) :
    ∃ db2 row,
      crud.create_product db p = (db2, .ok row)
        ∧ row.name = p.name ∧ row.description = p.description
        ∧ row.price = p.price ∧ row.id = db.nextId
        ∧ row.created_at = row.updated_at := by
  have hany : db.rows.any (fun r => decide (r.name = p.name)) = false := by
    rw [List.any_eq_false]
    intro r hr
    simp [hfresh r hr]
  simp only [crud.create_product, crud.create_product_core, storeInsert, hany]
  simp only [Bool.false_eq_true, if_false]
  exact ⟨_, _, rfl, rfl, rfl, rfl, rfl, rfl⟩

/-- Witness for C8 on the empty table. -/
theorem create_fresh_name_succeeds_witness :
    ∃ db2 row,
      crud.create_product db0 pcWidget = (db2, .ok row)
        ∧ row.name = pcWidget.name ∧ row.description = pcWidget.description
        ∧ row.price = pcWidget.price ∧ row.id = db0.nextId
        ∧ row.created_at = row.updated_at :=
  create_fresh_name_succeeds db0 pcWidget (by decide)

/-- C9: List returns a window of the rows sorted by ascending id — sorted
output, at most `limit` rows, the empty list once `skip` reaches the row
count — and the HTTP layer defaults `skip` to 0 and `limit` to 100. -/
theorem get_products_window_props :
    (∀ (db : DB) (skip limit : Nat),
        List.Sorted crud.rowIdLe (crud.get_products db skip limit)
          ∧ (crud.get_products db skip limit).length ≤ limit)
      ∧ (∀ (db : DB) (skip limit : Nat),
          db.rows.length ≤ skip → crud.get_products db skip limit = [])
      ∧ (∀ db : DB,
          main.list_products db none none
            = (db, .okList200 (crud.get_products db 0 100))) := by
  refine ⟨?_, ?_, ?_⟩
  · intro db skip limit
    constructor
    · have hs : List.Sorted crud.rowIdLe (db.rows.insertionSort crud.rowIdLe) :=
        List.sorted_insertionSort crud.rowIdLe db.rows
      have hsub : List.Sublist (crud.get_products db skip limit)
          (db.rows.insertionSort crud.rowIdLe) :=
        (List.take_sublist _ _).trans (List.drop_sublist _ _)
      exact List.Pairwise.sublist hsub hs
    · unfold crud.get_products
      rw [List.length_take]
      exact min_le_left _ _
  · intro db skip limit h
    unfold crud.get_products
    have hlen : (db.rows.insertionSort crud.rowIdLe).length = db.rows.length :=
      (List.perm_insertionSort crud.rowIdLe db.rows).length_eq
    have hd : (db.rows.insertionSort crud.rowIdLe).drop skip = [] :=
      List.drop_eq_nil_of_le (by omega)
    rw [hd, List.take_nil]
  · intro db
    rfl

/-- Witness for C9 on the two-row table: the default window is sorted and
short enough, and skipping past the row count yields the empty list. -/
theorem get_products_window_props_witness :
    (List.Sorted crud.rowIdLe (crud.get_products db2 0 100)
        ∧ (crud.get_products db2 0 100).length ≤ 100)
      ∧ crud.get_products db2 5 100 = []
      ∧ main.list_products db2 none none
        = (db2, .okList200 (crud.get_products db2 0 100)) :=
  ⟨get_products_window_props.1 db2 0 100,
    get_products_window_props.2.1 db2 5 100 (by decide),
    get_products_window_props.2.2 db2⟩

/-- C10: an update of an existing row that supplies no field at all is not
an error: the crud layer commits without emitting any UPDATE and hands back
the stored row with every field, `updated_at` included, unchanged, and the
PUT handler answers 200 with that row, the table left untouched. -/
theorem put_no_fields_returns_row_unchanged
    (db : DB) (pid : Nat) (row : ProductRow)
    (hfind : db.rows.find? (fun r => decide (r.id = pid)) = some row) :
    crud.update_product db pid ⟨none, none, none⟩ = (db, .ok (some row))
      ∧ main.update_product db pid emptyUpdate = (db, .ok200 row) := by
  have hpc : crud.precheckConflict db pid ⟨none, none, none⟩ = false := rfl
  have happ : crud.applyUpdate row ⟨none, none, none⟩ = row := rfl
  have hnc : crud.noNetChange (crud.applyUpdate row ⟨none, none, none⟩) row
      = true := by
    rw [happ]
    simp [crud.noNetChange, (Dec.eqv_iff_val_eq row.price row.price).2 rfl]
  have hcrud : crud.update_product db pid ⟨none, none, none⟩
      = (db, .ok (some row)) := by
    simp only [crud.update_product, hfind, hpc, hnc]
    simp
  refine ⟨hcrud, ?_⟩
  have hparse : parseUpdate emptyUpdate = some ⟨none, none, none⟩ := rfl
  simp only [main.update_product, hparse, hcrud]

/-- Witness for C10 at row 1 of `db1`. -/
theorem put_no_fields_returns_row_unchanged_witness :
    crud.update_product db1 1 ⟨none, none, none⟩ = (db1, .ok (some widgetRow))
      ∧ main.update_product db1 1 emptyUpdate = (db1, .ok200 widgetRow) :=
  put_no_fields_returns_row_unchanged db1 1 widgetRow (by decide)


end ProductApi
